import Mathlib

/-
  Verification development for the pyGAPS Horvath-Kawazoe micropore PSD core
  (src/pygaps/characterisation/psd_microporous.py) and the IAST entry checks.

  Embedding conventions:
  - Python floats are modelled as exact rationals.
  - External numeric library routines (numpy exp, numpy log, numpy sin,
    scipy minimize_scalar) are collaborator parameters, bundled in NumEnv.
    The bounded scalar minimizer is modelled as a function that receives the
    objective and the two bounds and returns the located abscissa (res.x).
  - Python dicts of properties are association lists; a failed key access
    (Python KeyError) is the keyError variant of PSDError.
  - Python exceptions propagate as the Except error monad.
-/

namespace PyGAPS

/-- A Python property dictionary: association list from names to values. -/
abbrev PropDict := List (String × ℚ)

/-- The exceptions that the embedded code paths can raise. -/
inductive PSDError where
  | parameterError (msg : String)
  | calculationError (msg : String)
  | keyError (key : String)
  | unboundLocal (name : String)
  deriving DecidableEq, Repr

/-- Dict item access d[k]: a missing key raises KeyError. -/
def dictGet (d : PropDict) (k : String) : Except PSDError ℚ :=
  match List.lookup k d with
  | some v => Except.ok v
  | none => Except.error (PSDError.keyError k)

/-- scipy.constants.electron_mass (CODATA value used by scipy). -/
def electron_mass : ℚ := 9.1093837015e-31

/-- scipy.constants.speed_of_light. -/
def speed_of_light : ℚ := 299792458

/-- scipy.constants.Avogadro. -/
def Avogadro : ℚ := 6.02214076e23

/-- scipy.constants.gas_constant. -/
def gas_constant : ℚ := 8.314462618

/-- scipy.constants.pi as the Python float value. -/
def pi_f : ℚ := 3.141592653589793

/-- Python int() truncation toward zero of a rational. -/
def pyInt (q : ℚ) : Int := Int.tdiv q.num (q.den : Int)

/-- External numeric collaborators closed over by the embedded code. -/
structure NumEnv where
  exp : ℚ → ℚ
  log : ℚ → ℚ
  sin : ℚ → ℚ
  minimize_scalar : (ℚ → ℚ) → ℚ → ℚ → ℚ

/-- numpy bisect-left kernel backing numpy.searchsorted (side=left).
    Fuel-based recursion; the interval shrinks every step so fuel equal to
    the list length is always sufficient. -/
def bisect_left_aux : Nat → (Nat → ℚ) → ℚ → Nat → Nat → Nat
  | 0, _, _, lo, _ => lo
  | fuel + 1, get, v, lo, hi =>
    if lo < hi then
      let mid := (lo + hi) / 2
      if get mid < v then bisect_left_aux fuel get v (mid + 1) hi
      else bisect_left_aux fuel get v lo mid
    else lo

/-- numpy.searchsorted(xs, v) with the default side=left. -/
def searchsorted (xs : List ℚ) (v : ℚ) : Nat :=
  bisect_left_aux xs.length (fun i => xs.getD i 0) v 0 xs.length

/-- Python slice xs[a:b] for nonnegative indices. -/
def pySlice (xs : List ℚ) (a b : Nat) : List ℚ := (xs.take b).drop a

/-- Python truthiness of an optional float: None and 0.0 are falsy. -/
def pyTruthy : Option ℚ → Bool
  | none => false
  | some q => decide (q ≠ 0)

/-- The SF (Cheng-Yang) correction factor subtracted from the HK potential:
    1 + (1/theta) ln(1-theta) at fractional coverage theta. -/
def sf_correction (log : ℚ → ℚ) (c_point : ℚ) : ℚ :=
  1 + 1 / c_point * log (1 - c_point)

/-- Fractional coverage used by the Cheng-Yang solver: loading divided
    elementwise by its last value (Python loading / loading[-1]; on an
    empty list Python would raise IndexError instead). -/
def hk_coverage (loading : List ℚ) : List ℚ :=
  loading.map (fun n => n / loading.getLastD 0)

/-- Per-point bounded minimization solver _solve_hk: for each pressure point,
    minimize (exp(hk_fun(l)) - p)^2 over [bound, 50] and collect res.x. -/
def _solve_hk (env : NumEnv) (pressure : List ℚ) (hk_fun : ℚ → ℚ) (bound : ℚ) :
    List ℚ :=
  pressure.foldl
    (fun p_w p_point =>
      p_w ++ [env.minimize_scalar
        (fun l_pore => (env.exp (hk_fun l_pore) - p_point) ^ 2) bound 50])
    []

/-- Per-point solver _solve_hk_cy with the Cheng-Yang SF correction
    subtracted inside the exponential. -/
def _solve_hk_cy (env : NumEnv) (pressure loading : List ℚ) (hk_fun : ℚ → ℚ)
    (bound : ℚ) : List ℚ :=
  (pressure.zip (hk_coverage loading)).foldl
    (fun p_w pc =>
      p_w ++ [env.minimize_scalar
        (fun l_pore =>
          (env.exp (hk_fun l_pore - sf_correction env.log pc.2) - pc.1) ^ 2)
        bound 50])
    []

/-- _kirkwood_muller_dispersion_ads from the source. -/
def _kirkwood_muller_dispersion_ads (p_ads m_ads : ℚ) : ℚ :=
  1.5 * electron_mass * speed_of_light ^ 2 * p_ads * m_ads

/-- _kirkwood_muller_dispersion_mat from the source. -/
def _kirkwood_muller_dispersion_mat (p_mat m_mat p_ads m_ads : ℚ) : ℚ :=
  6 * electron_mass * speed_of_light ^ 2 * p_ads * p_mat /
    (p_ads / m_ads + p_mat / m_mat)

/-- _dispersion_from_dict: unit-convert polarizabilities and magnetic
    susceptibilities (nm3 to m3, times 1e-27) and return both
    Kirkwood-Muller dispersion constants. -/
def _dispersion_from_dict (ads_dict mat_dict : PropDict) :
    Except PSDError (ℚ × ℚ) := do
  let p_ads := (← dictGet ads_dict "polarizability") * 1e-27
  let p_mat := (← dictGet mat_dict "polarizability") * 1e-27
  let m_ads := (← dictGet ads_dict "magnetic_susceptibility") * 1e-27
  let m_mat := (← dictGet mat_dict "magnetic_susceptibility") * 1e-27
  Except.ok
    (_kirkwood_muller_dispersion_ads p_ads m_ads,
     _kirkwood_muller_dispersion_mat p_mat m_mat p_ads m_ads)

/-- _N_over_RT from the source. -/
def _N_over_RT (temp : ℚ) : ℚ := Avogadro / gas_constant / temp

/-- Modelled from the spec: HK_KEYS from .characterisation.models_hk is not
    under src (only imported there); the spec lists the HK-required property
    names: molecular_diameter, polarizability, magnetic_susceptibility and
    surface_density. -/
def HK_KEYS : List String :=
  ["molecular_diameter", "polarizability", "magnetic_susceptibility",
   "surface_density"]

/-- The entry parameter check shared textually by psd_horvath_kawazoe and
    psd_horvath_kawazoe_ry: it collects the keys of each supplied dictionary
    that are not among the recognised keys (note the direction: this flags
    present-but-unknown keys, not absent required keys) and raises
    ParameterError when that list is non-empty. -/
def hk_property_check (adsorbate_properties material_properties : PropDict) :
    Except PSDError Unit :=
  let missing_mat :=
    (material_properties.map Prod.fst).filter (fun x => !(HK_KEYS.contains x))
  if missing_mat ≠ [] then
    Except.error (PSDError.parameterError
      s!"Adsorbent properties dictionary is missing parameters: {missing_mat}.")
  else
    let missing_ads :=
      (adsorbate_properties.map Prod.fst).filter
        (fun x =>
          !((HK_KEYS ++ ["liquid_density", "adsorbate_molar_mass"]).contains x))
    if missing_ads ≠ [] then
      Except.error (PSDError.parameterError
        s!"Adsorbate properties dictionary is missing parameters: {missing_ads}.")
    else Except.ok ()

/-- The slit-geometry HK potential (closure of psd_horvath_kawazoe, slit
    branch), with the closed-over constants passed explicitly. -/
def slit_potential_hk (nrt n_ads a_ads n_mat a_mat d_eff : ℚ)
    (l_pore : ℚ) : ℚ :=
  let sigma := 0.8583742 * d_eff
  let sigma_p4_o3 := sigma ^ 4 / 3
  let sigma_p10_o9 := sigma ^ 10 / 9
  let const_coeff := nrt * (n_ads * a_ads + n_mat * a_mat) / (sigma * 1e-9) ^ 4
  let const_term := sigma_p10_o9 / d_eff ^ 9 - sigma_p4_o3 / d_eff ^ 3
  const_coeff / (l_pore - 2 * d_eff) *
    (sigma_p4_o3 / (l_pore - d_eff) ^ 3 - sigma_p10_o9 / (l_pore - d_eff) ^ 9 +
      const_term)

/-- The cylinder-geometry HK potential: truncated Saito-Foley series with
    int(l_pore * 30) terms and the recurrence for the a_k, b_k coefficients. -/
def cylinder_potential_hk (nrt n_ads a_ads n_mat a_mat d_eff : ℚ)
    (l_pore : ℚ) : ℚ :=
  let const_coeff :=
    0.75 * pi_f * nrt * (n_ads * a_ads + n_mat * a_mat) / (d_eff * 1e-9) ^ 4
  let d_over_r := d_eff / l_pore
  let res :=
    (List.range' 1 (pyInt (l_pore * 30) - 1).toNat).foldl
      (fun (st : ℚ × ℚ × ℚ) (k : ℕ) =>
        let a_k := ((-4.5 - (k : ℚ)) / (k : ℚ)) ^ 2 * st.1
        let b_k := ((-1.5 - (k : ℚ)) / (k : ℚ)) ^ 2 * st.2.1
        (a_k, b_k,
          st.2.2 + 1 / ((k : ℚ) + 1) * (1 - d_over_r) ^ (2 * k) *
            (0.65625 * a_k * d_over_r ^ 10 - b_k * d_over_r ^ 4)))
      (1, 1, 0.65625 * d_over_r ^ 10 - d_over_r ^ 4)
  const_coeff * res.2.2

/-- The sphere-geometry HK (Cheng-Yang spherical) potential. -/
def sphere_potential_hk (nrt n_ads a_ads n_mat a_mat d_ads d_eff : ℚ)
    (l_pore : ℚ) : ℚ :=
  let p_12 := a_mat / (4 * (d_eff * 1e-9) ^ 6)
  let p_22 := a_ads / (4 * (d_ads * 1e-9) ^ 6)
  let l_minus_d := l_pore - d_eff
  let d_over_l := d_eff / l_pore
  let n_1 := 4 * pi_f * (l_pore * 1e-9) ^ 2 * n_mat
  let n_2 := 4 * pi_f * (l_minus_d * 1e-9) ^ 2 * n_ads
  let t_term : Nat → ℚ := fun x =>
    (1 + (-1) ^ x * l_minus_d / l_pore) ^ (-(x : Int)) -
      (1 - (-1) ^ x * l_minus_d / l_pore) ^ (-(x : Int))
  nrt * (6 * (n_1 * p_12 + n_2 * p_22) * (l_pore / l_minus_d) ^ 3) *
    (-(d_over_l ^ 6) * (1 / 12 * t_term 3 + 1 / 8 * t_term 2) +
      d_over_l ^ 12 * (1 / 90 * t_term 9 + 1 / 80 * t_term 8))

/-- Dispatch of a pressure series to the plain or Cheng-Yang corrected
    per-point solver (the use_cy branching around each _solve_hk call). -/
def hk_solve_branch (env : NumEnv) (pressure loading : List ℚ) (use_cy : Bool)
    (potential : ℚ → ℚ) (bound : ℚ) : List ℚ :=
  if use_cy then _solve_hk_cy env pressure loading potential bound
  else _solve_hk env pressure potential bound

/-- The per-geometry branch block of psd_horvath_kawazoe: build the potential
    for the geometry, solve each point over the bounded interval, and apply
    the geometry width transform. An unknown geometry leaves pore_widths
    unbound (Python would raise UnboundLocalError at the use site). -/
def hk_raw_widths (env : NumEnv) (pressure loading : List ℚ) (use_cy : Bool)
    (pore_geometry : String)
    (nrt n_ads a_ads n_mat a_mat d_ads d_mat d_eff : ℚ) :
    Except PSDError (List ℚ) :=
  if pore_geometry = "slit" then
    let pw := hk_solve_branch env pressure loading use_cy
      (slit_potential_hk nrt n_ads a_ads n_mat a_mat d_eff) (2 * d_eff)
    Except.ok (pw.map (fun w => w - d_mat))
  else if pore_geometry = "cylinder" then
    let pw := hk_solve_branch env pressure loading use_cy
      (cylinder_potential_hk nrt n_ads a_ads n_mat a_mat d_eff) d_eff
    Except.ok (pw.map (fun w => 2 * w - d_mat))
  else if pore_geometry = "sphere" then
    let pw := hk_solve_branch env pressure loading use_cy
      (sphere_potential_hk nrt n_ads a_ads n_mat a_mat d_ads d_eff) d_eff
    Except.ok (pw.map (fun w => 2 * w - d_mat))
  else Except.error (PSDError.unboundLocal "pore_widths")

/-- numpy.diff: consecutive differences. -/
def diffs (xs : List ℚ) : List ℚ := List.zipWith (fun a b => a - b) xs.tail xs

/-- Boolean-mask selection, numpy fancy indexing xs[mask]. -/
def maskSelect : List ℚ → List Bool → List ℚ
  | x :: xs, b :: bs =>
    if b then x :: maskSelect xs bs else maskSelect xs bs
  | _, _ => []

/-- The common tail of both kernels: midpoint widths, adsorbed volume
    (loading times molar mass over liquid density over 1000) and the
    difference-quotient pore distribution, before any filtering. -/
def hk_assembly (pore_widths loading : List ℚ)
    (adsorbate_molar_mass liquid_density : ℚ) :
    List ℚ × List ℚ × List ℚ :=
  let avg_pore_widths :=
    List.zipWith (fun a b => (a + b) / 2) pore_widths pore_widths.tail
  let volume_adsorbed :=
    loading.map (fun n => n * adsorbate_molar_mass / liquid_density / 1000)
  let pore_dist := List.zipWith (fun a b => a / b) (diffs volume_adsorbed)
    (diffs pore_widths)
  (avg_pore_widths, pore_dist, volume_adsorbed.tail)

/-- The HK-kernel cut of extreme values: keep indices whose distribution
    value d satisfies 1e-3 < d and d < 1e3 (signed, strict). -/
def band_mask_filter (t : List ℚ × List ℚ × List ℚ) :
    List ℚ × List ℚ × List ℚ :=
  let mask := t.2.1.map (fun d => decide ((1e-3 : ℚ) < d) && decide (d < (1e3 : ℚ)))
  (maskSelect t.1 mask, maskSelect t.2.1 mask, maskSelect t.2.2 mask)

/-- psd_horvath_kawazoe: entry checks, constant unpacking, per-geometry
    width solve, assembly, and the band filter on the distribution. -/
def psd_horvath_kawazoe (env : NumEnv) (pressure loading : List ℚ)
    (temperature : ℚ) (pore_geometry : String)
    (adsorbate_properties material_properties : PropDict) (use_cy : Bool) :
    Except PSDError (List ℚ × List ℚ × List ℚ) := do
  let () ← hk_property_check adsorbate_properties material_properties
  let d_ads ← dictGet adsorbate_properties "molecular_diameter"
  let d_mat ← dictGet material_properties "molecular_diameter"
  let n_ads ← dictGet adsorbate_properties "surface_density"
  let n_mat ← dictGet material_properties "surface_density"
  let am ← _dispersion_from_dict adsorbate_properties material_properties
  let d_eff := (d_ads + d_mat) / 2
  let nrt := _N_over_RT temperature
  let pore_widths ← hk_raw_widths env pressure loading use_cy pore_geometry
    nrt n_ads am.1 n_mat am.2 d_ads d_mat d_eff
  let liquid_density ← dictGet adsorbate_properties "liquid_density"
  let adsorbate_molar_mass ← dictGet adsorbate_properties "adsorbate_molar_mass"
  Except.ok (band_mask_filter
    (hk_assembly pore_widths loading adsorbate_molar_mass liquid_density))

/-- The slit-geometry Rege-Yang potential. -/
def slit_potential_ry (nrt n_ads a_ads n_mat a_mat d_ads d_mat d_eff : ℚ)
    (l_pore : ℚ) : ℚ :=
  let sigma_mat := 0.858374219 * d_eff
  let sigma_ads := 0.858374219 * d_ads
  let s_over_da := sigma_ads / d_ads
  let s_over_d0 := sigma_mat / d_eff
  let potential_adsorbate :=
    n_ads * a_ads / (2 * (sigma_ads * 1e-9) ^ 4) *
      (-s_over_da ^ 4 + s_over_da ^ 10)
  let potential_surface :=
    n_mat * a_mat / (2 * (sigma_mat * 1e-9) ^ 4) *
      (-s_over_d0 ^ 4 + s_over_d0 ^ 10) + potential_adsorbate
  let potential_twosurface :=
    n_mat * a_mat / (2 * (sigma_mat * 1e-9) ^ 4) *
      (-s_over_d0 ^ 4 + s_over_d0 ^ 10 - (sigma_mat / (l_pore - d_eff)) ^ 4 +
        (sigma_mat / (l_pore - d_eff)) ^ 10)
  let n_layer := (l_pore - d_mat) / d_ads
  if n_layer < 2 then nrt * potential_twosurface
  else nrt * ((2 * potential_surface + (n_layer - 2) * 2 * potential_adsorbate)
    / n_layer)

/-- The truncated series k_sum of the cylinder Rege-Yang potential. -/
def ry_k_sum (l_pore ratio n : ℚ) : ℚ :=
  let res :=
    (List.range' 1 (pyInt (l_pore * 30) - 1).toNat).foldl
      (fun (st : ℚ × ℚ) (k : ℕ) =>
        let k_sum := st.2 + st.1 * ratio ^ (2 * k)
        (((-n - (k : ℚ)) / (k : ℚ)) ^ 2 * st.1, k_sum))
      (1, 1)
  res.2

/-- The general single-layer potential of the cylinder Rege-Yang model. -/
def cylinder_potential_general_ry (l_pore d_x n_x a_x r1 r2 : ℚ) : ℚ :=
  0.75 * pi_f * n_x * a_x / (d_x * 1e-9) ^ 4 *
    (0.65625 * r1 ^ 10 * ry_k_sum l_pore r2 4.5 -
      r1 ^ 4 * ry_k_sum l_pore r2 1.5)

/-- The cylinder-geometry Rege-Yang potential: layer loop carrying the
    population and potential lists. The final weighted average reproduces the
    source literally: numpy.asarray is applied to the scalar last
    layer_population (not the populations list), so the weighted sum and its
    normaliser both use that scalar; with an empty loop Python would raise
    UnboundLocalError (modelled by the default 0). -/
def cylinder_potential_ry (env : NumEnv)
    (nrt n_ads a_ads n_mat a_mat d_ads d_mat d_eff : ℚ) (l_pore : ℚ) : ℚ :=
  let n_layers := pyInt ((l_pore - d_mat) / d_ads - 0.5) + 1
  let lists :=
    (List.range' 1 (n_layers - 1).toNat).foldl
      (fun (acc : List ℚ × List ℚ) layer =>
        let width := 2 * (l_pore - d_eff - ((layer : ℚ) - 1) * d_ads)
        let layer_population :=
          if d_ads < width then
            pi_f / (env.sin (d_mat / width)) ^ (-(1 : Int))
          else 1
        let layer_potential :=
          if layer = 1 then
            cylinder_potential_general_ry l_pore d_eff n_mat a_mat
              (d_eff / l_pore) ((l_pore - d_eff) / l_pore)
          else
            cylinder_potential_general_ry l_pore d_ads n_ads a_ads
              (d_ads / (l_pore - d_eff - ((layer : ℚ) - 2) * d_ads))
              ((l_pore - d_eff - ((layer : ℚ) - 1) * d_ads) /
                (l_pore - d_eff - ((layer : ℚ) - 2) * d_ads))
        (acc.1 ++ [layer_population], acc.2 ++ [layer_potential]))
      ([], [])
  let layer_molecules := lists.1.getLastD 0
  nrt * (layer_molecules * lists.2.sum) / layer_molecules

/-- The general single-layer potential of the sphere Rege-Yang model. -/
def sphere_potential_general_ry (n_m p_xx r1 r2 : ℚ) : ℚ :=
  2 * n_m * p_xx *
    (-r1 ^ 6 / (4 * r2) * ((1 - r2) ^ (-(4 : Int)) - (1 + r2) ^ (-(4 : Int))) +
      r1 ^ 12 / (10 * r2) *
        ((1 - r2) ^ (-(10 : Int)) - (1 + r2) ^ (-(10 : Int))))

/-- The sphere-geometry Rege-Yang potential; the subsequent-layer branch
    weights by the previous population (layer_populations[-1] in the source)
    and the final average uses the scalar last population exactly as in the
    cylinder case. -/
def sphere_potential_ry (nrt n_ads a_ads n_mat a_mat d_ads d_mat d_eff : ℚ)
    (l_pore : ℚ) : ℚ :=
  let p_12 := a_mat / (4 * (d_eff * 1e-9) ^ 6)
  let p_22 := a_ads / (4 * (d_ads * 1e-9) ^ 6)
  let n_layers := pyInt ((l_pore - d_mat) / d_ads - 0.5) + 1
  let lists :=
    (List.range' 1 (n_layers - 1).toNat).foldl
      (fun (acc : List ℚ × List ℚ) layer =>
        if layer = 1 then
          let layer_population := 4 * pi_f * l_pore ^ 2 * n_mat
          let layer_potential := sphere_potential_general_ry layer_population
            p_12 (d_eff / l_pore) ((l_pore - d_eff) / l_pore)
          (acc.1 ++ [layer_population], acc.2 ++ [layer_potential])
        else
          let layer_population :=
            4 * pi_f * (l_pore - d_eff - ((layer : ℚ) - 1) * d_ads) ^ 2 * n_ads
          let r1 := d_ads / (l_pore - d_eff - ((layer : ℚ) - 2) * d_ads)
          let r2 := (l_pore - d_ads - ((layer : ℚ) - 1) * d_ads) /
            (l_pore - d_ads - ((layer : ℚ) - 2) * d_ads)
          let layer_potential :=
            sphere_potential_general_ry (acc.1.getLastD 0) p_22 r1 r2
          (acc.1 ++ [layer_population], acc.2 ++ [layer_potential]))
      ([], [])
  let layer_molecules := lists.1.getLastD 0
  nrt * (layer_molecules * lists.2.sum) / layer_molecules

/-- The per-geometry branch block of psd_horvath_kawazoe_ry. -/
def ry_raw_widths (env : NumEnv) (pressure loading : List ℚ) (use_cy : Bool)
    (pore_geometry : String)
    (nrt n_ads a_ads n_mat a_mat d_ads d_mat d_eff : ℚ) :
    Except PSDError (List ℚ) :=
  if pore_geometry = "slit" then
    let pw := hk_solve_branch env pressure loading use_cy
      (slit_potential_ry nrt n_ads a_ads n_mat a_mat d_ads d_mat d_eff)
      (2 * d_eff)
    Except.ok (pw.map (fun w => w - d_mat))
  else if pore_geometry = "cylinder" then
    let pw := hk_solve_branch env pressure loading use_cy
      (cylinder_potential_ry env nrt n_ads a_ads n_mat a_mat d_ads d_mat d_eff)
      d_eff
    Except.ok (pw.map (fun w => 2 * w - d_mat))
  else if pore_geometry = "sphere" then
    let pw := hk_solve_branch env pressure loading use_cy
      (sphere_potential_ry nrt n_ads a_ads n_mat a_mat d_ads d_mat d_eff)
      d_eff
    Except.ok (pw.map (fun w => 2 * w - d_mat))
  else Except.error (PSDError.unboundLocal "pore_widths")

/-- psd_horvath_kawazoe_ry: identical pipeline to psd_horvath_kawazoe with
    the Rege-Yang potentials, and no band filter on the result. -/
def psd_horvath_kawazoe_ry (env : NumEnv) (pressure loading : List ℚ)
    (temperature : ℚ) (pore_geometry : String)
    (adsorbate_properties material_properties : PropDict) (use_cy : Bool) :
    Except PSDError (List ℚ × List ℚ × List ℚ) := do
  let () ← hk_property_check adsorbate_properties material_properties
  let d_ads ← dictGet adsorbate_properties "molecular_diameter"
  let d_mat ← dictGet material_properties "molecular_diameter"
  let n_ads ← dictGet adsorbate_properties "surface_density"
  let n_mat ← dictGet material_properties "surface_density"
  let am ← _dispersion_from_dict adsorbate_properties material_properties
  let d_eff := (d_ads + d_mat) / 2
  let nrt := _N_over_RT temperature
  let pore_widths ← ry_raw_widths env pressure loading use_cy pore_geometry
    nrt n_ads am.1 n_mat am.2 d_ads d_mat d_eff
  let liquid_density ← dictGet adsorbate_properties "liquid_density"
  let adsorbate_molar_mass ← dictGet adsorbate_properties "adsorbate_molar_mass"
  Except.ok (hk_assembly pore_widths loading adsorbate_molar_mass liquid_density)

/-- The Adsorbate collaborator: property lookup, liquid density at a
    temperature, and molar mass. -/
structure AdsorbateData where
  get_prop : String → ℚ
  liquid_density : ℚ → ℚ
  molar_mass : ℚ

/-- The Isotherm collaborator: per-branch ordered loading and pressure
    series (loading may be absent for a branch, modelling the None return),
    the temperature, and the (possibly unknown) adsorbate. The aligned
    fields are the documented collaborator contract that loading and
    pressure for a branch have the same length and index alignment. -/
structure Isotherm where
  loading_ads : Option (List ℚ)
  pressure_ads : List ℚ
  loading_des : Option (List ℚ)
  pressure_des : List ℚ
  temperature : ℚ
  adsorbate : Option AdsorbateData
  aligned_ads : ∀ l, loading_ads = some l → l.length = pressure_ads.length
  aligned_des : ∀ l, loading_des = some l → l.length = pressure_des.length

/-- isotherm.loading(branch=...): branch has been validated to ads or des
    before this is called. -/
def iso_loading (iso : Isotherm) (branch : String) : Option (List ℚ) :=
  if branch = "ads" then iso.loading_ads else iso.loading_des

/-- isotherm.pressure(branch=...). -/
def iso_pressure (iso : Isotherm) (branch : String) : List ℚ :=
  if branch = "ads" then iso.pressure_ads else iso.pressure_des

/-- The adsorbate-model resolution of psd_microporous: an explicit property
    dictionary wins; otherwise the isotherm adsorbate must be known, and its
    six HK properties are collected. -/
def resolve_adsorbate (iso : Isotherm) (adsorbate_model : Option PropDict) :
    Except PSDError PropDict :=
  match adsorbate_model with
  | some d => Except.ok d
  | none =>
    match iso.adsorbate with
    | none =>
      Except.error (PSDError.parameterError
        ("Isotherm adsorbate is not known, cannot calculate PSD."
          ++ "Either use a recognised adsorbate (i.e. nitrogen) or "
          ++ "pass a dictionary with your adsorbate parameters."))
    | some a =>
      Except.ok
        [("molecular_diameter", a.get_prop "molecular_diameter"),
         ("polarizability", a.get_prop "polarizability"),
         ("magnetic_susceptibility", a.get_prop "magnetic_susceptibility"),
         ("surface_density", a.get_prop "surface_density"),
         ("liquid_density", a.liquid_density iso.temperature),
         ("adsorbate_molar_mass", a.molar_mass)]

/-- Modelled from the spec: get_hk_model from .characterisation.models_hk is
    not under src. Per the spec it resolves material parameters and validates
    the mapping against the fixed HK key set, failing when the material model
    parameters are incomplete. The named-registry lookup is out of scope; the
    embedding takes the mapping itself. -/
def get_hk_model (material_model : PropDict) : Except PSDError PropDict :=
  if HK_KEYS.all (fun k => (List.lookup k material_model).isSome) then
    Except.ok material_model
  else
    Except.error (PSDError.parameterError
      "Material model parameters are incomplete.")

/-- The desorption-branch reversal applied to each series read from the
    isotherm (lines 151-153 of the source). -/
def prep_series (branch : String) (xs : List ℚ) : List ℚ :=
  if branch = "des" then xs.reverse else xs

/-- Defaulting of p_limits: a falsy (absent) value becomes (None, 0.2). -/
def effective_limits (p_limits : Option (Option ℚ × Option ℚ)) :
    Option ℚ × Option ℚ :=
  match p_limits with
  | none => (none, some 0.2)
  | some pl => pl

/-- The window bounds: searchsorted for each truthy limit, otherwise 0 and
    the series length (note Python truthiness: a limit of 0.0 is ignored). -/
def window_bounds (pressure : List ℚ) (pl : Option ℚ × Option ℚ) :
    Nat × Nat :=
  (if pyTruthy pl.1 then searchsorted pressure (pl.1.getD 0) else 0,
   if pyTruthy pl.2 then searchsorted pressure (pl.2.getD 0) else
     pressure.length)

/-- The lists of acceptable model and geometry names. -/
def _MICRO_PSD_MODELS : List String := ["HK", "HK-CY", "RY", "RY-CY"]

/-- The acceptable pore geometries. -/
def _PORE_GEOMETRIES : List String := ["slit", "cylinder", "sphere"]

/-- psd_microporous: parameter validation, adsorbate and material property
    resolution, branch data read, desorption reversal, pressure windowing
    with a three-point minimum, and dispatch to the HK or RY kernel. -/
def psd_microporous (env : NumEnv) (isotherm : Isotherm)
    (psd_model pore_geometry branch : String) (material_model : PropDict)
    (adsorbate_model : Option PropDict)
    (p_limits : Option (Option ℚ × Option ℚ)) :
    Except PSDError (List ℚ × List ℚ × List ℚ) :=
  if psd_model ∉ _MICRO_PSD_MODELS then
    Except.error (PSDError.parameterError
      s!"Model {psd_model} not an option for psd. Available models are {_MICRO_PSD_MODELS}")
  else if pore_geometry ∉ _PORE_GEOMETRIES then
    Except.error (PSDError.parameterError
      s!"Geometry {pore_geometry} not an option for pore size distribution. Available geometries are {_PORE_GEOMETRIES}")
  else if branch ∉ ["ads", "des"] then
    Except.error (PSDError.parameterError
      s!"Branch {branch} not an option for PSD. Select either ads or des")
  else
    match resolve_adsorbate isotherm adsorbate_model with
    | Except.error e => Except.error e
    | Except.ok adsorbate_props =>
      match get_hk_model material_model with
      | Except.error e => Except.error e
      | Except.ok material_properties =>
        match iso_loading isotherm branch with
        | none =>
          Except.error (PSDError.parameterError
            "The isotherm does not have the required branch for this calculation")
        | some loading0 =>
          let loading := prep_series branch loading0
          let pressure := prep_series branch (iso_pressure isotherm branch)
          let pl := effective_limits p_limits
          let mm := window_bounds pressure pl
          if ((mm.2 : Int) - (mm.1 : Int)) < 3 then
            Except.error (PSDError.calculationError
              "The isotherm does not have enough points (at least 3) in the selected region.")
          else
            let pressure2 := pySlice pressure mm.1 mm.2
            let loading2 := pySlice loading mm.1 mm.2
            if psd_model ∈ (["HK", "HK-CY"] : List String) then
              psd_horvath_kawazoe env pressure2 loading2 isotherm.temperature
                pore_geometry adsorbate_props material_properties
                (decide (psd_model ≠ "HK"))
            else if psd_model ∈ (["RY", "RY-CY"] : List String) then
              psd_horvath_kawazoe_ry env pressure2 loading2 isotherm.temperature
                pore_geometry adsorbate_props material_properties
                (decide (psd_model ≠ "RY"))
            else Except.error (PSDError.unboundLocal "pore_widths")

/-- A component model isotherm for IAST: a fitted loading(pressure) model. -/
structure ModelIsotherm where
  loading : ℚ → ℚ

/-- Modelled from the spec: the tolerance of the adsorbed-fraction sum check
    of reverse_iast (the spec states a tolerance check without a value; the
    numpy.isclose default relative tolerance is used). -/
def iast_fraction_tol : ℚ := 1e-5

/-- Modelled from the spec: pygaps.iast is not under src (only its test
    suite is). Per the spec, the forward mode takes N component model
    isotherms and N partial pressures and fails with ParameterError if N is
    less than 2 or the vector length differs; the equilibrium computation
    itself is abstracted as the solver collaborator. -/
def iast (isotherms : List ModelIsotherm) (partial_pressures : List ℚ)
    (solver : List ModelIsotherm → List ℚ → List ℚ) :
    Except PSDError (List ℚ) :=
  if isotherms.length < 2 then
    Except.error (PSDError.parameterError
      "Pass at least two isotherms for an IAST calculation")
  else if partial_pressures.length ≠ isotherms.length then
    Except.error (PSDError.parameterError
      "The number of partial pressures differs from the number of isotherms")
  else Except.ok (solver isotherms partial_pressures)

/-- Modelled from the spec: pygaps.reverse_iast is not under src. Per the
    spec it fails with ParameterError on fewer than 2 components, on a
    component count mismatch, and when the target adsorbed mole fractions do
    not sum to 1 within tolerance; the root-finding is abstracted. -/
def reverse_iast (isotherms : List ModelIsotherm)
    (adsorbed_mole_fractions : List ℚ) (total_pressure : ℚ)
    (solver : List ModelIsotherm → List ℚ → ℚ → List ℚ × List ℚ) :
    Except PSDError (List ℚ × List ℚ) :=
  if isotherms.length < 2 then
    Except.error (PSDError.parameterError
      "Pass at least two isotherms for an IAST calculation")
  else if adsorbed_mole_fractions.length ≠ isotherms.length then
    Except.error (PSDError.parameterError
      "The number of adsorbed mole fractions differs from the number of isotherms")
  else if |adsorbed_mole_fractions.sum - 1| > iast_fraction_tol then
    Except.error (PSDError.parameterError
      "The adsorbed mole fractions do not add up to unity")
  else Except.ok (solver isotherms adsorbed_mole_fractions total_pressure)

/-- The spec lower search bound for the per-point solver, written from the
    spec wording: 2 d_eff for slit geometry, d_eff for cylinder and sphere.
    Compared against the bounds hard-coded in the source branches. -/
def spec_lower_bound (pore_geometry : String) (d_eff : ℚ) : ℚ :=
  if pore_geometry = "slit" then 2 * d_eff else d_eff

/-- Equal-length statement for a PSD result triple; error results carry no
    triple and satisfy it trivially. -/
def lengthsOk (r : Except PSDError (List ℚ × List ℚ × List ℚ)) : Prop :=
  match r with
  | Except.ok t => t.1.length = t.2.1.length ∧ t.2.1.length = t.2.2.length
  | Except.error _ => True

/-- A concrete numeric environment for closed instances: exp and log are the
    zero function and the minimizer evaluates its objective at 0, so the
    located width for a pressure point p is (0 - p) squared. -/
def testEnv : NumEnv :=
  { exp := fun _ => 0, log := fun _ => 0, sin := fun _ => 0,
    minimize_scalar := fun f _ _ => f 0 }

/-- A concrete adsorbate property dictionary for closed instances. -/
def propsA : PropDict :=
  [("molecular_diameter", 2), ("polarizability", 1),
   ("magnetic_susceptibility", 1), ("surface_density", 1),
   ("liquid_density", 1), ("adsorbate_molar_mass", 1000)]

/-- A concrete material property dictionary for closed instances. -/
def propsM : PropDict :=
  [("molecular_diameter", 0), ("polarizability", 1),
   ("magnetic_susceptibility", 1), ("surface_density", 1)]

/-- A trivial component model isotherm for closed instances. -/
def mi0 : ModelIsotherm := { loading := fun _ => 0 }

/-- A concrete invalid model name for closed instances. -/
def strXX : String := "XX"

/-- A concrete invalid geometry name for closed instances. -/
def strBox : String := "box"

/-- A concrete invalid branch name for closed instances. -/
def strFoo : String := "foo"

/-- A concrete two-point adsorption isotherm for closed instances. -/
def isoW : Isotherm :=
  { loading_ads := some [1, 1],
    pressure_ads := [1, 2],
    loading_des := none,
    pressure_des := [],
    temperature := 300,
    adsorbate := none,
    aligned_ads := by intro l h; injection h with h; subst h; rfl,
    aligned_des := by intro l h; simp at h }

/-! Helper lemmas about the embedded list and monad operations. -/

lemma foldl_append_singleton {α β : Type} (f : α → β) (l : List α) :
    ∀ init : List β,
      List.foldl (fun acc x => acc ++ [f x]) init l = init ++ l.map f := by
  induction l with
  | nil => intro init; simp
  | cons x xs ih =>
    intro init
    simp only [List.foldl_cons, List.map_cons, ih]
    simp

lemma solve_hk_eq_map (env : NumEnv) (pressure : List ℚ) (hk_fun : ℚ → ℚ)
    (bound : ℚ) :
    _solve_hk env pressure hk_fun bound =
      pressure.map (fun p_point =>
        env.minimize_scalar
          (fun l_pore => (env.exp (hk_fun l_pore) - p_point) ^ 2) bound 50) := by
  simpa [_solve_hk] using
    foldl_append_singleton
      (fun p_point =>
        env.minimize_scalar
          (fun l_pore => (env.exp (hk_fun l_pore) - p_point) ^ 2) bound 50)
      pressure []

lemma solve_hk_cy_eq_map (env : NumEnv) (pressure loading : List ℚ)
    (hk_fun : ℚ → ℚ) (bound : ℚ) :
    _solve_hk_cy env pressure loading hk_fun bound =
      (pressure.zip (hk_coverage loading)).map (fun pc =>
        env.minimize_scalar
          (fun l_pore =>
            (env.exp (hk_fun l_pore - sf_correction env.log pc.2) - pc.1) ^ 2)
          bound 50) := by
  simpa [_solve_hk_cy] using
    foldl_append_singleton
      (fun pc : ℚ × ℚ =>
        env.minimize_scalar
          (fun l_pore =>
            (env.exp (hk_fun l_pore - sf_correction env.log pc.2) - pc.1) ^ 2)
          bound 50)
      (pressure.zip (hk_coverage loading)) []

lemma length_solve_hk (env : NumEnv) (pressure : List ℚ) (hk_fun : ℚ → ℚ)
    (bound : ℚ) :
    (_solve_hk env pressure hk_fun bound).length = pressure.length := by
  rw [solve_hk_eq_map]; simp

lemma length_hk_coverage (loading : List ℚ) :
    (hk_coverage loading).length = loading.length := by
  simp [hk_coverage]

lemma length_solve_hk_cy (env : NumEnv) (pressure loading : List ℚ)
    (hk_fun : ℚ → ℚ) (bound : ℚ) :
    (_solve_hk_cy env pressure loading hk_fun bound).length =
      min pressure.length loading.length := by
  rw [solve_hk_cy_eq_map]; simp [length_hk_coverage]

lemma length_hk_solve_branch (env : NumEnv) (pressure loading : List ℚ)
    (use_cy : Bool) (potential : ℚ → ℚ) (bound : ℚ) :
    (hk_solve_branch env pressure loading use_cy potential bound).length =
      if use_cy then min pressure.length loading.length
      else pressure.length := by
  cases use_cy <;>
    simp [hk_solve_branch, length_solve_hk, length_solve_hk_cy]

lemma maskSelect_length {m : List Bool} :
    ∀ {xs : List ℚ}, m.length ≤ xs.length →
      (maskSelect xs m).length = m.count true := by
  induction m with
  | nil => intro xs _; cases xs <;> simp [maskSelect]
  | cons b bs ih =>
    intro xs h
    cases xs with
    | nil => simp at h
    | cons x xs =>
      simp only [List.length_cons, Nat.add_le_add_iff_right] at h
      cases b <;> simp [maskSelect, ih h, List.count_cons]

lemma maskSelect_map_self (p : ℚ → Bool) :
    ∀ xs : List ℚ, maskSelect xs (xs.map p) = xs.filter p := by
  intro xs
  induction xs with
  | nil => simp [maskSelect]
  | cons x xs ih =>
    by_cases hx : p x <;> simp [maskSelect, hx, ih, List.filter_cons]

lemma except_bind_ok {ε α β : Type} (x : Except ε α) (f : α → Except ε β)
    (b : β) :
    (x >>= f) = Except.ok b ↔ ∃ a, x = Except.ok a ∧ f a = Except.ok b := by
  cases x <;> simp [Bind.bind, Except.bind]

lemma diffs_length (xs : List ℚ) : (diffs xs).length = xs.length - 1 := by
  simp [diffs]

lemma bisect_left_aux_bounds (get : Nat → ℚ) (v : ℚ) :
    ∀ (fuel lo hi : Nat), lo ≤ hi →
      lo ≤ bisect_left_aux fuel get v lo hi ∧
        bisect_left_aux fuel get v lo hi ≤ hi := by
  intro fuel
  induction fuel with
  | zero => intro lo hi h; exact ⟨Nat.le_refl lo, h⟩
  | succ n ih =>
    intro lo hi h
    simp only [bisect_left_aux]
    by_cases hlt : lo < hi
    · simp only [hlt, if_true]
      by_cases hget : get ((lo + hi) / 2) < v
      · simp only [hget, if_true]
        have h1 : (lo + hi) / 2 + 1 ≤ hi := by omega
        have := ih ((lo + hi) / 2 + 1) hi h1
        exact ⟨Nat.le_trans (by omega) this.1, this.2⟩
      · simp only [hget, if_false]
        have h1 : lo ≤ (lo + hi) / 2 := by omega
        have := ih lo ((lo + hi) / 2) h1
        exact ⟨this.1, Nat.le_trans this.2 (by omega)⟩
    · simp only [hlt, if_false]
      exact ⟨Nat.le_refl lo, h⟩

lemma searchsorted_le_length (xs : List ℚ) (v : ℚ) :
    searchsorted xs v ≤ xs.length :=
  (bisect_left_aux_bounds _ v xs.length 0 xs.length (Nat.zero_le _)).2

lemma window_bounds_le (xs : List ℚ) (pl : Option ℚ × Option ℚ) :
    (window_bounds xs pl).1 ≤ xs.length ∧
      (window_bounds xs pl).2 ≤ xs.length := by
  constructor <;> simp only [window_bounds] <;> split <;>
    first
      | exact searchsorted_le_length xs _
      | exact Nat.zero_le _
      | exact Nat.le_refl _

lemma pySlice_length (xs : List ℚ) (a b : Nat) :
    (pySlice xs a b).length = min b xs.length - a := by
  simp [pySlice]

lemma hk_raw_widths_length {env : NumEnv} {p l : List ℚ} {cy : Bool}
    {g : String} {nrt na aa nm am da dm de : ℚ} {pw : List ℚ}
    (h : hk_raw_widths env p l cy g nrt na aa nm am da dm de = Except.ok pw) :
    pw.length = if cy then min p.length l.length else p.length := by
  simp only [hk_raw_widths] at h
  split at h
  · simp only [Except.ok.injEq] at h; subst h
    simp [length_hk_solve_branch]
  · split at h
    · simp only [Except.ok.injEq] at h; subst h
      simp [length_hk_solve_branch]
    · split at h
      · simp only [Except.ok.injEq] at h; subst h
        simp [length_hk_solve_branch]
      · simp at h

lemma ry_raw_widths_length {env : NumEnv} {p l : List ℚ} {cy : Bool}
    {g : String} {nrt na aa nm am da dm de : ℚ} {pw : List ℚ}
    (h : ry_raw_widths env p l cy g nrt na aa nm am da dm de = Except.ok pw) :
    pw.length = if cy then min p.length l.length else p.length := by
  simp only [ry_raw_widths] at h
  split at h
  · simp only [Except.ok.injEq] at h; subst h
    simp [length_hk_solve_branch]
  · split at h
    · simp only [Except.ok.injEq] at h; subst h
      simp [length_hk_solve_branch]
    · split at h
      · simp only [Except.ok.injEq] at h; subst h
        simp [length_hk_solve_branch]
      · simp at h

lemma lengthsOk_bind_ok {α : Type}
    (x : Except PSDError α)
    (f : α → Except PSDError (List ℚ × List ℚ × List ℚ))
    (h : ∀ a, x = Except.ok a → lengthsOk (f a)) :
    lengthsOk (x >>= f) := by
  cases x with
  | error e => simp [Bind.bind, Except.bind, lengthsOk]
  | ok a => simpa [Bind.bind, Except.bind] using h a rfl

lemma hk_assembly_lengths (pw l : List ℚ) (mm ld : ℚ) :
    (hk_assembly pw l mm ld).1.length = pw.length - 1 ∧
      (hk_assembly pw l mm ld).2.1.length =
        min (l.length - 1) (pw.length - 1) ∧
      (hk_assembly pw l mm ld).2.2.length = l.length - 1 := by
  simp [hk_assembly, diffs_length]

lemma band_mask_filter_lengths (t : List ℚ × List ℚ × List ℚ)
    (h1 : t.2.1.length ≤ t.1.length) (h2 : t.2.1.length ≤ t.2.2.length) :
    (band_mask_filter t).1.length = (band_mask_filter t).2.1.length ∧
      (band_mask_filter t).2.1.length = (band_mask_filter t).2.2.length := by
  simp only [band_mask_filter]
  rw [maskSelect_length (by simpa using h1),
    maskSelect_length (by simp),
    maskSelect_length (by simpa using h2)]
  exact ⟨rfl, rfl⟩

lemma hk_lengthsOk (env : NumEnv) (p l : List ℚ) (T : ℚ) (g : String)
    (A M : PropDict) (cy : Bool) :
    lengthsOk (psd_horvath_kawazoe env p l T g A M cy) := by
  unfold psd_horvath_kawazoe
  apply lengthsOk_bind_ok; intro u _
  apply lengthsOk_bind_ok; intro d_ads _
  apply lengthsOk_bind_ok; intro d_mat _
  apply lengthsOk_bind_ok; intro n_ads _
  apply lengthsOk_bind_ok; intro n_mat _
  apply lengthsOk_bind_ok; intro am _
  apply lengthsOk_bind_ok; intro pw _
  apply lengthsOk_bind_ok; intro ld _
  apply lengthsOk_bind_ok; intro mm _
  have hl := hk_assembly_lengths pw l mm ld
  have hb := band_mask_filter_lengths (hk_assembly pw l mm ld)
    (by omega) (by omega)
  simpa [lengthsOk, pure, Except.pure] using hb

lemma ry_lengthsOk (env : NumEnv) (p l : List ℚ) (T : ℚ) (g : String)
    (A M : PropDict) (cy : Bool) (hlen : p.length = l.length) :
    lengthsOk (psd_horvath_kawazoe_ry env p l T g A M cy) := by
  unfold psd_horvath_kawazoe_ry
  apply lengthsOk_bind_ok; intro u _
  apply lengthsOk_bind_ok; intro d_ads _
  apply lengthsOk_bind_ok; intro d_mat _
  apply lengthsOk_bind_ok; intro n_ads _
  apply lengthsOk_bind_ok; intro n_mat _
  apply lengthsOk_bind_ok; intro am _
  apply lengthsOk_bind_ok; intro pw hpw
  apply lengthsOk_bind_ok; intro ld _
  apply lengthsOk_bind_ok; intro mm _
  have hraw := ry_raw_widths_length hpw
  have hpwlen : pw.length = l.length := by
    rcases Bool.eq_false_or_eq_true cy with hcy | hcy <;> subst hcy <;>
      simp at hraw <;> omega
  have hl := hk_assembly_lengths pw l mm ld
  simp only [lengthsOk, pure, Except.pure]
  constructor <;> omega

lemma zip_getLast?_eq :
    ∀ (p c : List ℚ), p.length = c.length →
      (p.zip c).getLast? =
        p.getLast?.bind (fun a => c.getLast?.map (fun b => (a, b))) := by
  intro p
  induction p with
  | nil => intro c h; simp
  | cons x p ih =>
    intro c h
    cases c with
    | nil => simp at h
    | cons y c =>
      cases p with
      | nil =>
        have hc : c = [] := by
          simpa using h.symm
        subst hc
        simp
      | cons z p2 =>
        cases c with
        | nil => simp at h
        | cons w c2 =>
          have h2 : (z :: p2).length = (w :: c2).length := by
            simpa using h
          have hmain := ih (w :: c2) h2
          simp only [List.zip_cons_cons] at hmain ⊢
          rw [List.getLast?_cons_cons, List.getLast?_cons_cons,
            List.getLast?_cons_cons]
          exact hmain

lemma iso_aligned (iso : Isotherm) (branch : String) (l : List ℚ)
    (h : iso_loading iso branch = some l) :
    l.length = (iso_pressure iso branch).length := by
  by_cases hb : branch = "ads"
  · subst hb
    simp only [iso_loading, iso_pressure, if_pos rfl] at h ⊢
    exact iso.aligned_ads l h
  · simp only [iso_loading, iso_pressure, if_neg hb] at h ⊢
    exact iso.aligned_des l h

lemma getLast?_of_ne_nil {xs : List ℚ} (h : xs ≠ []) :
    ∃ a, xs.getLast? = some a := by
  cases hcase : xs.getLast? with
  | none => exact absurd (List.getLast?_eq_none_iff.mp hcase) h
  | some a => exact ⟨a, rfl⟩

lemma dictGet_ok {dct : PropDict} {k : String} {x : ℚ}
    (h : dictGet dct k = Except.ok x) : List.lookup k dct = some x := by
  unfold dictGet at h
  cases hc : List.lookup k dct <;> rw [hc] at h <;> simp_all

lemma solve_testEnv_map (pressure : List ℚ) (hk_fun : ℚ → ℚ) (bound : ℚ) :
    _solve_hk testEnv pressure hk_fun bound =
      pressure.map (fun p => ((0 : ℚ) - p) ^ 2) := by
  rw [solve_hk_eq_map]
  rfl

lemma psd_hk_eval_ok {env : NumEnv} {p l : List ℚ} {T : ℚ} {g : String}
    {A M : PropDict} {cy : Bool} {da dm na nm : ℚ} {am : ℚ × ℚ}
    {pw : List ℚ} {ldq mmq : ℚ}
    (hchk : hk_property_check A M = Except.ok ())
    (hda : dictGet A "molecular_diameter" = Except.ok da)
    (hdm : dictGet M "molecular_diameter" = Except.ok dm)
    (hna : dictGet A "surface_density" = Except.ok na)
    (hnm : dictGet M "surface_density" = Except.ok nm)
    (ham : _dispersion_from_dict A M = Except.ok am)
    (hpw : hk_raw_widths env p l cy g (_N_over_RT T) na am.1 nm am.2 da dm
      ((da + dm) / 2) = Except.ok pw)
    (hld : dictGet A "liquid_density" = Except.ok ldq)
    (hmm : dictGet A "adsorbate_molar_mass" = Except.ok mmq) :
    psd_horvath_kawazoe env p l T g A M cy =
      Except.ok (band_mask_filter (hk_assembly pw l mmq ldq)) := by
  simp only [psd_horvath_kawazoe, hchk, hda, hdm, hna, hnm, ham, hpw, hld,
    hmm, Bind.bind, Except.bind]

lemma psd_ry_eval_ok {env : NumEnv} {p l : List ℚ} {T : ℚ} {g : String}
    {A M : PropDict} {cy : Bool} {da dm na nm : ℚ} {am : ℚ × ℚ}
    {pw : List ℚ} {ldq mmq : ℚ}
    (hchk : hk_property_check A M = Except.ok ())
    (hda : dictGet A "molecular_diameter" = Except.ok da)
    (hdm : dictGet M "molecular_diameter" = Except.ok dm)
    (hna : dictGet A "surface_density" = Except.ok na)
    (hnm : dictGet M "surface_density" = Except.ok nm)
    (ham : _dispersion_from_dict A M = Except.ok am)
    (hpw : ry_raw_widths env p l cy g (_N_over_RT T) na am.1 nm am.2 da dm
      ((da + dm) / 2) = Except.ok pw)
    (hld : dictGet A "liquid_density" = Except.ok ldq)
    (hmm : dictGet A "adsorbate_molar_mass" = Except.ok mmq) :
    psd_horvath_kawazoe_ry env p l T g A M cy =
      Except.ok (hk_assembly pw l mmq ldq) := by
  simp only [psd_horvath_kawazoe_ry, hchk, hda, hdm, hna, hnm, ham, hpw, hld,
    hmm, Bind.bind, Except.bind]

lemma band_decide_pos :
    (decide ((1e-3 : ℚ) < 1 / 3) && decide ((1 / 3 : ℚ) < 1e3)) = true := by
  rw [Bool.and_eq_true, decide_eq_true_eq, decide_eq_true_eq]
  constructor <;> norm_num

lemma band_decide_neg :
    (decide ((1e-3 : ℚ) < -1 / 5) && decide ((-1 / 5 : ℚ) < 1e3)) = false := by
  have h1 : decide ((1e-3 : ℚ) < -1 / 5) = false := by
    rw [decide_eq_false_iff_not]
    norm_num
  rw [h1, Bool.false_and]

lemma cex_assembly :
    hk_assembly [1, 4, 9] [1, 2, 1] 1000 1 =
      ([5 / 2, 13 / 2], [1 / 3, -1 / 5], [2, 1]) := by
  norm_num [hk_assembly, diffs]

lemma cex_slit_widths {A1 A2 : ℚ} :
    hk_raw_widths testEnv [1, 2, 3] [1, 2, 1] false "slit" (_N_over_RT 300)
        1 A1 1 A2 2 0 ((2 + 0) / 2) = Except.ok [1, 4, 9] := by
  rw [hk_raw_widths, if_pos rfl]
  have hbr : hk_solve_branch testEnv [1, 2, 3] [1, 2, 1] false
      (slit_potential_hk (_N_over_RT 300) 1 A1 1 A2 ((2 + 0) / 2))
      (2 * ((2 + 0) / 2)) =
    _solve_hk testEnv [1, 2, 3]
      (slit_potential_hk (_N_over_RT 300) 1 A1 1 A2 ((2 + 0) / 2))
      (2 * ((2 + 0) / 2)) := rfl
  rw [hbr, solve_testEnv_map]
  norm_num

lemma cex_ry_slit_widths {A1 A2 : ℚ} :
    ry_raw_widths testEnv [1, 2, 3] [1, 2, 1] false "slit" (_N_over_RT 300)
        1 A1 1 A2 2 0 ((2 + 0) / 2) = Except.ok [1, 4, 9] := by
  rw [ry_raw_widths, if_pos rfl]
  have hbr : hk_solve_branch testEnv [1, 2, 3] [1, 2, 1] false
      (slit_potential_ry (_N_over_RT 300) 1 A1 1 A2 2 0 ((2 + 0) / 2))
      (2 * ((2 + 0) / 2)) =
    _solve_hk testEnv [1, 2, 3]
      (slit_potential_ry (_N_over_RT 300) 1 A1 1 A2 2 0 ((2 + 0) / 2))
      (2 * ((2 + 0) / 2)) := rfl
  rw [hbr, solve_testEnv_map]
  norm_num

lemma cex_band_filter :
    band_mask_filter ([5 / 2, 13 / 2], [1 / 3, -1 / 5], ([2, 1] : List ℚ)) =
      ([5 / 2], [1 / 3], [2]) := by
  rw [band_mask_filter]
  dsimp only
  simp only [List.map_cons, List.map_nil]
  rw [band_decide_pos, band_decide_neg]
  rfl

lemma hk_slit_cex_eval :
    psd_horvath_kawazoe testEnv [1, 2, 3] [1, 2, 1] 300 "slit" propsA propsM
        false = Except.ok ([5 / 2], [1 / 3], [2]) := by
  have h := @psd_hk_eval_ok testEnv [1, 2, 3] [1, 2, 1] 300 "slit" propsA
    propsM false 2 0 1 1
    (_kirkwood_muller_dispersion_ads (1 * 1e-27) (1 * 1e-27),
      _kirkwood_muller_dispersion_mat (1 * 1e-27) (1 * 1e-27) (1 * 1e-27)
        (1 * 1e-27))
    [1, 4, 9] 1 1000
    rfl rfl rfl rfl rfl rfl cex_slit_widths rfl rfl
  rw [h, cex_assembly, cex_band_filter]

lemma ry_slit_cex_eval :
    psd_horvath_kawazoe_ry testEnv [1, 2, 3] [1, 2, 1] 300 "slit" propsA
        propsM false =
      Except.ok ([5 / 2, 13 / 2], [1 / 3, -1 / 5], [2, 1]) := by
  have h := @psd_ry_eval_ok testEnv [1, 2, 3] [1, 2, 1] 300 "slit" propsA
    propsM false 2 0 1 1
    (_kirkwood_muller_dispersion_ads (1 * 1e-27) (1 * 1e-27),
      _kirkwood_muller_dispersion_mat (1 * 1e-27) (1 * 1e-27) (1 * 1e-27)
        (1 * 1e-27))
    [1, 4, 9] 1 1000
    rfl rfl rfl rfl rfl rfl cex_ry_slit_widths rfl rfl
  rw [h, cex_assembly]

/-! The claim theorems. -/

/-- Claim C3 (code bug): psd_horvath_kawazoe and psd_horvath_kawazoe_ry are
    required to raise ParameterError at entry whenever an HK-required
    property key is absent, but their entry check flags present-but-unknown
    keys instead: two empty dictionaries, from which every required key is
    absent, pass the check of both functions unchallenged, and the
    computation then dies on the first key access with a KeyError rather
    than the ParameterError the claim requires; a dictionary holding only an
    unknown key conversely is reported as, literally, missing parameters. -/
theorem hk_entry_check_misses_absent_keys (env : NumEnv) (p l : List ℚ)
    (T : ℚ) :
    hk_property_check [] [] = Except.ok () ∧
    psd_horvath_kawazoe env p l T "slit" [] [] false =
      Except.error (PSDError.keyError "molecular_diameter") ∧
    psd_horvath_kawazoe_ry env p l T "slit" [] [] false =
      Except.error (PSDError.keyError "molecular_diameter") ∧
    hk_property_check [] [("unexpected_key", 0)] =
      Except.error (PSDError.parameterError
        "Adsorbent properties dictionary is missing parameters: [unexpected_key].") := by
  refine ⟨rfl, rfl, rfl, rfl⟩

/-- Claim C4: psd_microporous raises ParameterError, before any isotherm
    data is read (the isotherm and every later argument are universally
    quantified and do not influence the error), whenever psd_model is not
    among HK, HK-CY, RY, RY-CY, or pore_geometry is not among slit,
    cylinder, sphere, or branch is not ads or des; the message names the
    invalid value and the allowed alternatives. -/
theorem psd_microporous_validation_errors (env : NumEnv) (iso : Isotherm)
    (material_model : PropDict) (adsorbate_model : Option PropDict)
    (p_limits : Option (Option ℚ × Option ℚ))
    (psd_model pore_geometry branch : String) :
    (psd_model ∉ _MICRO_PSD_MODELS →
      psd_microporous env iso psd_model pore_geometry branch material_model
          adsorbate_model p_limits =
        Except.error (PSDError.parameterError
          s!"Model {psd_model} not an option for psd. Available models are {_MICRO_PSD_MODELS}")) ∧
    (psd_model ∈ _MICRO_PSD_MODELS → pore_geometry ∉ _PORE_GEOMETRIES →
      psd_microporous env iso psd_model pore_geometry branch material_model
          adsorbate_model p_limits =
        Except.error (PSDError.parameterError
          s!"Geometry {pore_geometry} not an option for pore size distribution. Available geometries are {_PORE_GEOMETRIES}")) ∧
    (psd_model ∈ _MICRO_PSD_MODELS → pore_geometry ∈ _PORE_GEOMETRIES →
      branch ∉ (["ads", "des"] : List String) →
      psd_microporous env iso psd_model pore_geometry branch material_model
          adsorbate_model p_limits =
        Except.error (PSDError.parameterError
          s!"Branch {branch} not an option for PSD. Select either ads or des")) := by
  refine ⟨?_, ?_, ?_⟩
  · intro h
    simp only [psd_microporous]
    rw [if_pos h]
  · intro h1 h2
    simp only [psd_microporous]
    rw [if_neg (not_not_intro h1), if_pos h2]
  · intro h1 h2 h3
    simp only [psd_microporous]
    rw [if_neg (not_not_intro h1), if_neg (not_not_intro h2), if_pos h3]

/-- Witness for claim C4 at the concrete invalid inputs XX, box and foo. -/
theorem psd_microporous_validation_errors_witness :
    (strXX ∉ _MICRO_PSD_MODELS ∧
      psd_microporous testEnv isoW strXX "slit" "ads" propsM (some propsA)
          none =
        Except.error (PSDError.parameterError
          s!"Model {strXX} not an option for psd. Available models are {_MICRO_PSD_MODELS}")) ∧
    (strBox ∉ _PORE_GEOMETRIES ∧
      psd_microporous testEnv isoW "HK" strBox "ads" propsM (some propsA)
          none =
        Except.error (PSDError.parameterError
          s!"Geometry {strBox} not an option for pore size distribution. Available geometries are {_PORE_GEOMETRIES}")) ∧
    (strFoo ∉ (["ads", "des"] : List String) ∧
      psd_microporous testEnv isoW "HK" "slit" strFoo propsM (some propsA)
          none =
        Except.error (PSDError.parameterError
          s!"Branch {strFoo} not an option for PSD. Select either ads or des")) := by
  refine ⟨⟨by decide, ?_⟩, ⟨by decide, ?_⟩, ⟨by decide, ?_⟩⟩
  · exact (psd_microporous_validation_errors testEnv isoW propsM (some propsA)
      none strXX "slit" "ads").1 (by decide)
  · exact (psd_microporous_validation_errors testEnv isoW propsM (some propsA)
      none "HK" strBox "ads").2.1 (by decide) (by decide)
  · exact (psd_microporous_validation_errors testEnv isoW propsM (some propsA)
      none "HK" "slit" strFoo).2.2 (by decide) (by decide) (by decide)

/-- Claim C7: when branch is des, the series read from the isotherm are
    reversed before windowing and solving, and reversing a
    decreasing-pressure desorption series yields an increasing-pressure
    series for the solver; when branch is ads the order is unchanged. -/
theorem prep_series_branch_order (loading pressure : List ℚ) :
    prep_series "ads" loading = loading ∧
    prep_series "ads" pressure = pressure ∧
    prep_series "des" loading = loading.reverse ∧
    prep_series "des" pressure = pressure.reverse ∧
    (pressure.Pairwise (fun a b => b ≤ a) →
      (prep_series "des" pressure).Pairwise (fun a b => a ≤ b)) ∧
    (pressure.Pairwise (fun a b => a ≤ b) →
      (prep_series "ads" pressure).Pairwise (fun a b => a ≤ b)) := by
  refine ⟨rfl, rfl, rfl, rfl, ?_, ?_⟩
  · intro hp
    simp only [prep_series, if_pos rfl]
    simpa [List.pairwise_reverse] using hp
  · intro hp
    simpa [prep_series] using hp

/-- Witness for claim C7 on a concrete decreasing desorption series. -/
theorem prep_series_branch_order_witness :
    (([3, 2, 1] : List ℚ).Pairwise (fun a b => b ≤ a) ∧
      (prep_series "des" [3, 2, 1]).Pairwise (fun a b => (a : ℚ) ≤ b)) ∧
    (([1, 2, 3] : List ℚ).Pairwise (fun a b => a ≤ b) ∧
      (prep_series "ads" [1, 2, 3]).Pairwise (fun a b => (a : ℚ) ≤ b)) := by
  have h3 : (([3, 2, 1] : List ℚ)).Pairwise (fun a b => b ≤ a) := by
    norm_num [List.pairwise_cons]
  have h1 : (([1, 2, 3] : List ℚ)).Pairwise (fun a b => a ≤ b) := by
    norm_num [List.pairwise_cons]
  exact ⟨⟨h3, (prep_series_branch_order [] [3, 2, 1]).2.2.2.2.1 h3⟩,
    ⟨h1, (prep_series_branch_order [] [1, 2, 3]).2.2.2.2.2 h1⟩⟩

/-- Claim C8: for all property mappings containing polarizability and
    magnetic susceptibility, _dispersion_from_dict returns exactly the
    Kirkwood-Muller pair: the adsorbate constant 1.5 me c^2 alpha kappa and
    the material constant 6 me c^2 alpha_ads alpha_mat over
    (alpha_ads/kappa_ads + alpha_mat/kappa_mat), with every polarizability
    and susceptibility first scaled by 1e-27; under these containment
    hypotheses no error path exists. -/
theorem dispersion_from_dict_formulas (ads mat : PropDict) (pa ma pm mm : ℚ)
    (hpa : List.lookup "polarizability" ads = some pa)
    (hma : List.lookup "magnetic_susceptibility" ads = some ma)
    (hpm : List.lookup "polarizability" mat = some pm)
    (hmm : List.lookup "magnetic_susceptibility" mat = some mm) :
    _dispersion_from_dict ads mat = Except.ok
      (1.5 * electron_mass * speed_of_light ^ 2 * (pa * 1e-27) * (ma * 1e-27),
       6 * electron_mass * speed_of_light ^ 2 * (pa * 1e-27) * (pm * 1e-27) /
         ((pa * 1e-27) / (ma * 1e-27) + (pm * 1e-27) / (mm * 1e-27))) := by
  simp only [_dispersion_from_dict, dictGet, hpa, hma, hpm, hmm,
    _kirkwood_muller_dispersion_ads, _kirkwood_muller_dispersion_mat,
    Bind.bind, Except.bind]

/-- Witness for claim C8 at concrete dictionaries with unit properties. -/
theorem dispersion_from_dict_formulas_witness :
    List.lookup "polarizability" propsA = some 1 ∧
    List.lookup "magnetic_susceptibility" propsA = some 1 ∧
    List.lookup "polarizability" propsM = some 1 ∧
    List.lookup "magnetic_susceptibility" propsM = some 1 ∧
    _dispersion_from_dict propsA propsM = Except.ok
      (1.5 * electron_mass * speed_of_light ^ 2 * (1 * 1e-27) * (1 * 1e-27),
       6 * electron_mass * speed_of_light ^ 2 * (1 * 1e-27) * (1 * 1e-27) /
         ((1 * 1e-27) / (1 * 1e-27) + (1 * 1e-27) / (1 * 1e-27))) :=
  ⟨rfl, rfl, rfl, rfl,
    dispersion_from_dict_formulas propsA propsM 1 1 1 1 rfl rfl rfl rfl⟩

/-- Claim C9 (spec-modelled: the IAST solver is not under src): iast raises
    ParameterError when given fewer than 2 component isotherms or when the
    partial pressure vector length differs from the component count;
    reverse_iast raises ParameterError under the same two conditions and
    also when the target adsorbed mole fractions do not sum to 1 within
    tolerance. -/
theorem iast_entry_checks (isotherms : List ModelIsotherm)
    (partial_pressures fractions : List ℚ) (total_pressure : ℚ)
    (fsolver : List ModelIsotherm → List ℚ → List ℚ)
    (rsolver : List ModelIsotherm → List ℚ → ℚ → List ℚ × List ℚ) :
    (isotherms.length < 2 →
      ∃ m, iast isotherms partial_pressures fsolver =
        Except.error (PSDError.parameterError m)) ∧
    (partial_pressures.length ≠ isotherms.length →
      ∃ m, iast isotherms partial_pressures fsolver =
        Except.error (PSDError.parameterError m)) ∧
    (isotherms.length < 2 →
      ∃ m, reverse_iast isotherms fractions total_pressure rsolver =
        Except.error (PSDError.parameterError m)) ∧
    (fractions.length ≠ isotherms.length →
      ∃ m, reverse_iast isotherms fractions total_pressure rsolver =
        Except.error (PSDError.parameterError m)) ∧
    (|fractions.sum - 1| > iast_fraction_tol →
      ∃ m, reverse_iast isotherms fractions total_pressure rsolver =
        Except.error (PSDError.parameterError m)) := by
  refine ⟨?_, ?_, ?_, ?_, ?_⟩
  · intro h
    exact ⟨_, by rw [iast, if_pos h]⟩
  · intro h
    by_cases h1 : isotherms.length < 2
    · exact ⟨_, by rw [iast, if_pos h1]⟩
    · exact ⟨_, by rw [iast, if_neg h1, if_pos h]⟩
  · intro h
    exact ⟨_, by rw [reverse_iast, if_pos h]⟩
  · intro h
    by_cases h1 : isotherms.length < 2
    · exact ⟨_, by rw [reverse_iast, if_pos h1]⟩
    · exact ⟨_, by rw [reverse_iast, if_neg h1, if_pos h]⟩
  · intro h
    by_cases h1 : isotherms.length < 2
    · exact ⟨_, by rw [reverse_iast, if_pos h1]⟩
    · by_cases h2 : fractions.length ≠ isotherms.length
      · exact ⟨_, by rw [reverse_iast, if_neg h1, if_pos h2]⟩
      · exact ⟨_, by rw [reverse_iast, if_neg h1, if_neg h2, if_pos h]⟩

/-- Witness for claim C9: one component, a length mismatch, and fractions
    0.1 and 0.4 whose sum misses 1 beyond tolerance. -/
theorem iast_entry_checks_witness :
    (([mi0] : List ModelIsotherm).length < 2 ∧
      ∃ m, iast [mi0] [1] (fun _ _ => []) =
        Except.error (PSDError.parameterError m)) ∧
    (([(1 : ℚ)] : List ℚ).length ≠ ([mi0, mi0] : List ModelIsotherm).length ∧
      ∃ m, iast [mi0, mi0] [1] (fun _ _ => []) =
        Except.error (PSDError.parameterError m)) ∧
    (∃ m, reverse_iast [mi0] [1] 2 (fun _ _ _ => ([], [])) =
      Except.error (PSDError.parameterError m)) ∧
    (∃ m, reverse_iast [mi0, mi0] [1] 2 (fun _ _ _ => ([], [])) =
      Except.error (PSDError.parameterError m)) ∧
    (|([(0.1 : ℚ), 0.4] : List ℚ).sum - 1| > iast_fraction_tol ∧
      ∃ m, reverse_iast [mi0, mi0] [0.1, 0.4] 2 (fun _ _ _ => ([], [])) =
        Except.error (PSDError.parameterError m)) := by
  have hsum : |([(0.1 : ℚ), 0.4] : List ℚ).sum - 1| > iast_fraction_tol := by
    have hval : ([(0.1 : ℚ), 0.4] : List ℚ).sum - 1 = -(1 / 2) := by norm_num
    rw [hval, abs_neg, abs_of_pos (by norm_num)]
    norm_num [iast_fraction_tol]
  refine ⟨⟨by decide, ?_⟩, ⟨by decide, ?_⟩, ?_, ?_, ⟨hsum, ?_⟩⟩
  · exact (iast_entry_checks [mi0] [1] [1] 2 (fun _ _ => [])
      (fun _ _ _ => ([], []))).1 (by decide)
  · exact (iast_entry_checks [mi0, mi0] [1] [1] 2 (fun _ _ => [])
      (fun _ _ _ => ([], []))).2.1 (by decide)
  · exact (iast_entry_checks [mi0] [1] [1] 2 (fun _ _ => [])
      (fun _ _ _ => ([], []))).2.2.1 (by decide)
  · exact (iast_entry_checks [mi0, mi0] [1] [1] 2 (fun _ _ => [])
      (fun _ _ _ => ([], []))).2.2.2.1 (by decide)
  · exact (iast_entry_checks [mi0, mi0] [1] [0.1, 0.4] 2 (fun _ _ => [])
      (fun _ _ _ => ([], []))).2.2.2.2 hsum

/-- Claim C1: the per-point solvers return exactly one pore width per input
    pair, in input order and with no failure path: the result has one entry
    per pressure point, and the entry at index i is the bounded scalar
    minimizer of (exp(potential(l) [- sf_correction]) - p_i)^2 over the
    interval from the lower bound to 50; the lower bound passed by the
    psd_horvath_kawazoe geometry branches agrees with the spec formula:
    2 d_eff for slit and d_eff for cylinder and sphere. -/
theorem solve_hk_per_point_contract (env : NumEnv) (pressure loading : List ℚ)
    (hk_fun : ℚ → ℚ) (bound nrt n_ads a_ads n_mat a_mat d_ads d_mat d_eff : ℚ) :
    (_solve_hk env pressure hk_fun bound).length = pressure.length ∧
    (∀ i, i < pressure.length →
      (_solve_hk env pressure hk_fun bound)[i]? =
        some (env.minimize_scalar
          (fun l_pore => (env.exp (hk_fun l_pore) - pressure.getD i 0) ^ 2)
          bound 50)) ∧
    (loading.length = pressure.length →
      (_solve_hk_cy env pressure loading hk_fun bound).length =
        pressure.length) ∧
    (∀ i, i < pressure.length → loading.length = pressure.length →
      (_solve_hk_cy env pressure loading hk_fun bound)[i]? =
        some (env.minimize_scalar
          (fun l_pore =>
            (env.exp (hk_fun l_pore -
              sf_correction env.log ((hk_coverage loading).getD i 0)) -
              pressure.getD i 0) ^ 2)
          bound 50)) ∧
    (∀ uc : Bool,
      hk_raw_widths env pressure loading uc "slit"
          nrt n_ads a_ads n_mat a_mat d_ads d_mat d_eff =
        Except.ok ((hk_solve_branch env pressure loading uc
          (slit_potential_hk nrt n_ads a_ads n_mat a_mat d_eff)
          (spec_lower_bound "slit" d_eff)).map (fun w => w - d_mat)) ∧
      hk_raw_widths env pressure loading uc "cylinder"
          nrt n_ads a_ads n_mat a_mat d_ads d_mat d_eff =
        Except.ok ((hk_solve_branch env pressure loading uc
          (cylinder_potential_hk nrt n_ads a_ads n_mat a_mat d_eff)
          (spec_lower_bound "cylinder" d_eff)).map (fun w => 2 * w - d_mat)) ∧
      hk_raw_widths env pressure loading uc "sphere"
          nrt n_ads a_ads n_mat a_mat d_ads d_mat d_eff =
        Except.ok ((hk_solve_branch env pressure loading uc
          (sphere_potential_hk nrt n_ads a_ads n_mat a_mat d_ads d_eff)
          (spec_lower_bound "sphere" d_eff)).map (fun w => 2 * w - d_mat))) := by
  refine ⟨length_solve_hk env pressure hk_fun bound, ?_, ?_, ?_, ?_⟩
  · intro i hi
    rw [solve_hk_eq_map, List.getElem?_map, List.getElem?_eq_getElem hi,
      List.getD_eq_getElem?_getD, List.getElem?_eq_getElem hi]
    rfl
  · intro hlen
    rw [length_solve_hk_cy, hlen, Nat.min_self]
  · intro i hi hlen
    have hci : i < (hk_coverage loading).length := by
      rw [length_hk_coverage, hlen]; exact hi
    have hzi : i < (pressure.zip (hk_coverage loading)).length := by
      simp only [List.length_zip, length_hk_coverage, hlen, Nat.min_self]
      exact hi
    rw [solve_hk_cy_eq_map, List.getElem?_map, List.getElem?_eq_getElem hzi,
      List.getD_eq_getElem?_getD pressure, List.getElem?_eq_getElem hi,
      List.getD_eq_getElem?_getD (hk_coverage loading),
      List.getElem?_eq_getElem hci]
    simp only [Option.map_some, Option.getD_some, List.getElem_zip]
    rfl
  · intro uc
    refine ⟨?_, ?_, ?_⟩
    · rw [hk_raw_widths, if_pos rfl, spec_lower_bound, if_pos rfl]
    · rw [hk_raw_widths, if_neg (by decide), if_pos rfl, spec_lower_bound,
        if_neg (by decide)]
    · rw [hk_raw_widths, if_neg (by decide), if_neg (by decide), if_pos rfl,
        spec_lower_bound, if_neg (by decide)]

/-- Witness for claim C1 at a concrete two-point series. -/
theorem solve_hk_per_point_contract_witness :
    (0 < ([(1 : ℚ), 2] : List ℚ).length) ∧
    ((_solve_hk testEnv [1, 2] id 3)[0]? =
      some (testEnv.minimize_scalar
        (fun l_pore =>
          (testEnv.exp (id l_pore) - ([(1 : ℚ), 2] : List ℚ).getD 0 0) ^ 2)
        3 50)) ∧
    ((_solve_hk_cy testEnv [1, 2] [1, 2] id 3).length = 2) ∧
    ((_solve_hk_cy testEnv [1, 2] [1, 2] id 3)[0]? =
      some (testEnv.minimize_scalar
        (fun l_pore =>
          (testEnv.exp (id l_pore -
            sf_correction testEnv.log
              ((hk_coverage [1, 2]).getD 0 0)) -
            ([(1 : ℚ), 2] : List ℚ).getD 0 0) ^ 2)
        3 50)) ∧
    (hk_raw_widths testEnv [1, 2] [1, 2] false "slit" 1 1 1 1 1 2 0 1 =
      Except.ok ((hk_solve_branch testEnv [1, 2] [1, 2] false
        (slit_potential_hk 1 1 1 1 1 1)
        (spec_lower_bound "slit" 1)).map (fun w => w - 0))) := by
  have h := solve_hk_per_point_contract testEnv [1, 2] [1, 2] id 3 1 1 1 1 1 2 0 1
  exact ⟨by decide, h.2.1 0 (by decide), h.2.2.1 rfl,
    h.2.2.2.1 0 (by decide) rfl, (h.2.2.2.2 false).1⟩

/-- Counterexample for claim C10 as stated: the non-empty loading sequence
    containing the single value 0 has final fractional coverage 0/0, which
    is not 1 (numpy produces nan there, likewise different from 1), so the
    universally quantified claim over every non-empty loading sequence
    fails; the nonzero-last-value hypothesis is required. -/
theorem hk_coverage_zero_last_cex :
    ([(0 : ℚ)] : List ℚ) ≠ [] ∧
    (hk_coverage [(0 : ℚ)]).getLast? ≠ some 1 := by
  constructor
  · exact List.cons_ne_nil 0 []
  · have hcov : hk_coverage [(0 : ℚ)] = [0] := by
      simp [hk_coverage]
    rw [hcov]
    simp

/-- Claim C10 (amended): for every non-empty loading sequence whose last
    value is nonzero, the fractional coverage of the final data point is
    exactly 1 (the sequence is divided elementwise by its own last value),
    and the objective built by _solve_hk_cy for that final point applies the
    logarithm collaborator at 1 - 1, a logarithm of zero; no guard in the
    code prevents this boundary evaluation. -/
theorem solve_hk_cy_final_point_log_zero (env : NumEnv)
    (pressure loading : List ℚ) (hk_fun : ℚ → ℚ) (bound : ℚ)
    (hlen : pressure.length = loading.length) (hne : loading ≠ [])
    (hlast : loading.getLastD 0 ≠ 0) :
    (hk_coverage loading).getLast? = some 1 ∧
    (_solve_hk_cy env pressure loading hk_fun bound).getLast? =
      some (env.minimize_scalar
        (fun l_pore =>
          (env.exp (hk_fun l_pore - (1 + 1 / 1 * env.log (1 - 1))) -
            pressure.getLastD 0) ^ 2) bound 50) := by
  obtain ⟨a, ha⟩ := getLast?_of_ne_nil hne
  have hlastval : loading.getLastD 0 = a := by
    rw [List.getLastD_eq_getLast?, ha]; rfl
  have hane : a ≠ 0 := by rw [hlastval] at hlast; exact hlast
  have hcov : (hk_coverage loading).getLast? = some 1 := by
    rw [hk_coverage, List.getLast?_map, ha, Option.map_some', hlastval,
      div_self hane]
  refine ⟨hcov, ?_⟩
  have hpne : pressure ≠ [] := by
    intro hp
    rw [hp] at hlen
    exact hne (List.length_eq_zero.mp hlen.symm)
  obtain ⟨pa, hpa⟩ := getLast?_of_ne_nil hpne
  have hpaval : pressure.getLastD 0 = pa := by
    rw [List.getLastD_eq_getLast?, hpa]; rfl
  rw [solve_hk_cy_eq_map, List.getLast?_map,
    zip_getLast?_eq pressure (hk_coverage loading)
      (by rw [length_hk_coverage]; exact hlen),
    hpa, hcov, hpaval]
  rfl

/-- Witness for claim C10 at the series with pressure one half and the
    single nonzero loading value 2. -/
theorem solve_hk_cy_final_point_log_zero_witness :
    (([(2 : ℚ)] : List ℚ) ≠ [] ∧ ([(2 : ℚ)] : List ℚ).getLastD 0 ≠ 0) ∧
    ((hk_coverage [(2 : ℚ)]).getLast? = some 1 ∧
      (_solve_hk_cy testEnv [1 / 2] [(2 : ℚ)] id 0).getLast? =
        some (testEnv.minimize_scalar
          (fun l_pore =>
            (testEnv.exp (id l_pore - (1 + 1 / 1 * testEnv.log (1 - 1))) -
              ([(1 : ℚ) / 2] : List ℚ).getLastD 0) ^ 2) 0 50)) := by
  refine ⟨⟨List.cons_ne_nil 2 [], by show (2 : ℚ) ≠ 0; norm_num⟩, ?_⟩
  exact solve_hk_cy_final_point_log_zero testEnv [1 / 2] [(2 : ℚ)] id 0 rfl
    (List.cons_ne_nil 2 []) (by show (2 : ℚ) ≠ 0; norm_num)

/-- Claim C5: whenever the otherwise valid call reaches the windowing stage
    and the pressure window determined by searchsorted on the (possibly
    reversed) series with the effective limits, defaulting to no lower bound
    and upper bound 0.2, retains fewer than 3 points, psd_microporous raises
    CalculationError. -/
theorem psd_microporous_window_calculation_error (env : NumEnv)
    (iso : Isotherm) (psd_model pore_geometry branch : String)
    (material_model : PropDict) (adsorbate_model : Option PropDict)
    (p_limits : Option (Option ℚ × Option ℚ)) (aprops mprops : PropDict)
    (loading0 : List ℚ)
    (hm : psd_model ∈ _MICRO_PSD_MODELS)
    (hg : pore_geometry ∈ _PORE_GEOMETRIES)
    (hb : branch ∈ (["ads", "des"] : List String))
    (ha : resolve_adsorbate iso adsorbate_model = Except.ok aprops)
    (hmat : get_hk_model material_model = Except.ok mprops)
    (hload : iso_loading iso branch = some loading0)
    (hcount :
      (pySlice (prep_series branch (iso_pressure iso branch))
        (window_bounds (prep_series branch (iso_pressure iso branch))
          (effective_limits p_limits)).1
        (window_bounds (prep_series branch (iso_pressure iso branch))
          (effective_limits p_limits)).2).length < 3) :
    psd_microporous env iso psd_model pore_geometry branch material_model
        adsorbate_model p_limits =
      Except.error (PSDError.calculationError
        "The isotherm does not have enough points (at least 3) in the selected region.") := by
  have hwle := window_bounds_le (prep_series branch (iso_pressure iso branch))
    (effective_limits p_limits)
  rw [pySlice_length] at hcount
  simp only [psd_microporous]
  rw [if_neg (not_not_intro hm), if_neg (not_not_intro hg),
    if_neg (not_not_intro hb)]
  simp only [ha, hmat, hload]
  rw [if_pos (by omega)]

/-- Witness for claim C5: a two-point isotherm with explicit absent limits
    keeps only 2 points in the window. -/
theorem psd_microporous_window_calculation_error_witness :
    (pySlice (prep_series "ads" (iso_pressure isoW "ads"))
        (window_bounds (prep_series "ads" (iso_pressure isoW "ads"))
          (effective_limits (some (none, none)))).1
        (window_bounds (prep_series "ads" (iso_pressure isoW "ads"))
          (effective_limits (some (none, none)))).2).length < 3 ∧
    psd_microporous testEnv isoW "HK" "slit" "ads" propsM (some propsA)
        (some (none, none)) =
      Except.error (PSDError.calculationError
        "The isotherm does not have enough points (at least 3) in the selected region.") := by
  refine ⟨by decide, ?_⟩
  exact psd_microporous_window_calculation_error testEnv isoW "HK" "slit"
    "ads" propsM (some propsA) (some (none, none)) propsA propsM [1, 1]
    (by decide) (by decide) (by decide) rfl rfl rfl (by decide)

/-- Claim C6: every invocation of psd_microporous that returns a result
    returns three sequences, pore widths, pore distribution and cumulative
    pore volume, of equal length (invalid invocations raise instead and
    satisfy the statement trivially). -/
theorem psd_microporous_equal_lengths (env : NumEnv) (iso : Isotherm)
    (psd_model pore_geometry branch : String) (material_model : PropDict)
    (adsorbate_model : Option PropDict)
    (p_limits : Option (Option ℚ × Option ℚ)) :
    lengthsOk (psd_microporous env iso psd_model pore_geometry branch
      material_model adsorbate_model p_limits) := by
  unfold psd_microporous
  split
  · trivial
  split
  · trivial
  split
  · trivial
  split
  · trivial
  split
  · trivial
  split
  · trivial
  rename_i loading0 hload
  split
  · dsimp only
    split
    · trivial
    · exact hk_lengthsOk _ _ _ _ _ _ _ _
  split
  · dsimp only
    split
    · trivial
    · apply ry_lengthsOk
      rw [pySlice_length, pySlice_length, prep_series, prep_series]
      have halign : loading0.length = (iso_pressure iso branch).length :=
        iso_aligned iso branch loading0 hload
      split <;> simp [halign]
  · dsimp only
    split
    · trivial
    · trivial

/-- Counterexample for claim C2 as stated: at a concrete slit HK run whose
    differentiated points are 1/3 and -1/5, the code returns only 1/3,
    although -1/5 has absolute value inside the band from 1e-3 to 1e3 and
    would be kept by an absolute-value filter: the returned distribution
    differs from the absolute-value filtering of the differentiated points,
    because the code compares the signed value. -/
theorem hk_band_filter_absolute_cex :
    psd_horvath_kawazoe testEnv [1, 2, 3] [1, 2, 1] 300 "slit" propsA propsM
        false = Except.ok ([5 / 2], [1 / 3], [2]) ∧
    hk_assembly [1, 4, 9] [1, 2, 1] 1000 1 =
      ([5 / 2, 13 / 2], [1 / 3, -1 / 5], [2, 1]) ∧
    ((1e-3 : ℚ) ≤ |(-1 / 5 : ℚ)| ∧ |(-1 / 5 : ℚ)| ≤ (1e3 : ℚ)) ∧
    ([(1 : ℚ) / 3] : List ℚ) ≠
      ([(1 : ℚ) / 3, -1 / 5] : List ℚ).filter
        (fun x => decide ((1e-3 : ℚ) ≤ |x|) && decide (|x| ≤ (1e3 : ℚ))) := by
  have habs : |(-1 / 5 : ℚ)| = 1 / 5 := by
    rw [show (-1 / 5 : ℚ) = -(1 / 5) by norm_num, abs_neg,
      abs_of_pos (by norm_num : (0 : ℚ) < 1 / 5)]
  have habs13 : |(1 / 3 : ℚ)| = 1 / 3 :=
    abs_of_pos (by norm_num : (0 : ℚ) < 1 / 3)
  refine ⟨hk_slit_cex_eval, cex_assembly,
    ⟨by rw [habs]; norm_num, by rw [habs]; norm_num⟩, ?_⟩
  have h1 : (fun x => decide ((1e-3 : ℚ) ≤ |x|) && decide (|x| ≤ (1e3 : ℚ)))
      ((1 : ℚ) / 3) = true := by
    show (decide ((1e-3 : ℚ) ≤ |(1 / 3 : ℚ)|) &&
      decide (|(1 / 3 : ℚ)| ≤ (1e3 : ℚ))) = true
    rw [Bool.and_eq_true, decide_eq_true_eq, decide_eq_true_eq, habs13]
    constructor <;> norm_num
  have h2 : (fun x => decide ((1e-3 : ℚ) ≤ |x|) && decide (|x| ≤ (1e3 : ℚ)))
      (-1 / 5 : ℚ) = true := by
    show (decide ((1e-3 : ℚ) ≤ |(-1 / 5 : ℚ)|) &&
      decide (|(-1 / 5 : ℚ)| ≤ (1e3 : ℚ))) = true
    rw [Bool.and_eq_true, decide_eq_true_eq, decide_eq_true_eq, habs]
    constructor <;> norm_num
  intro hcontra
  rw [@List.filter_cons_of_pos ℚ
      (fun x => decide ((1e-3 : ℚ) ≤ |x|) && decide (|x| ≤ (1e3 : ℚ)))
      ((1 : ℚ) / 3) [-1 / 5] h1,
    @List.filter_cons_of_pos ℚ
      (fun x => decide ((1e-3 : ℚ) ≤ |x|) && decide (|x| ≤ (1e3 : ℚ)))
      (-1 / 5 : ℚ) [] h2,
    List.filter_nil] at hcontra
  simp at hcontra

/-- Claim C2 (amended): psd_horvath_kawazoe returns exactly the
    differentiated points whose signed distribution value is strictly
    between 1e-3 and 1e3 (every returned value is in that open band, and the
    returned distribution is the band filtering of the unfiltered assembly),
    while psd_horvath_kawazoe_ry returns the unfiltered assembly with no
    such filter applied. -/
theorem hk_band_filter_signed (env : NumEnv) (p l : List ℚ) (T : ℚ)
    (g : String) (A M : PropDict) (cy : Bool) :
    (∀ w d v, psd_horvath_kawazoe env p l T g A M cy = Except.ok (w, d, v) →
      (∀ x ∈ d, (1e-3 : ℚ) < x ∧ x < (1e3 : ℚ)) ∧
      ∃ pw mmq ldq,
        List.lookup "adsorbate_molar_mass" A = some mmq ∧
        List.lookup "liquid_density" A = some ldq ∧
        (w, d, v) = band_mask_filter (hk_assembly pw l mmq ldq) ∧
        d = (hk_assembly pw l mmq ldq).2.1.filter
          (fun x => decide ((1e-3 : ℚ) < x) && decide (x < (1e3 : ℚ)))) ∧
    (∀ w d v,
      psd_horvath_kawazoe_ry env p l T g A M cy = Except.ok (w, d, v) →
      ∃ pw mmq ldq,
        List.lookup "adsorbate_molar_mass" A = some mmq ∧
        List.lookup "liquid_density" A = some ldq ∧
        (w, d, v) = hk_assembly pw l mmq ldq) := by
  constructor
  · intro w d v h
    rw [psd_horvath_kawazoe] at h
    simp only [except_bind_ok] at h
    obtain ⟨u, hu, h⟩ := h
    cases u
    obtain ⟨da, hda, dm, hdm, na, hna, nm, hnm, am, ham, pw, hpw, ldq, hld,
      mmq, hmm, hfinal⟩ := h
    injection hfinal with htrip
    have hd : d = (hk_assembly pw l mmq ldq).2.1.filter
        (fun x => decide ((1e-3 : ℚ) < x) && decide (x < (1e3 : ℚ))) := by
      have hcomp : (w, d, v).2.1 =
          (band_mask_filter (hk_assembly pw l mmq ldq)).2.1 := by
        rw [htrip]
      rw [band_mask_filter] at hcomp
      dsimp only at hcomp
      rw [maskSelect_map_self] at hcomp
      exact hcomp
    refine ⟨?_, pw, mmq, ldq, dictGet_ok hmm, dictGet_ok hld, htrip.symm, hd⟩
    intro x hx
    rw [hd] at hx
    obtain ⟨-, hpred⟩ := List.mem_filter.mp hx
    rw [Bool.and_eq_true, decide_eq_true_eq, decide_eq_true_eq] at hpred
    exact hpred
  · intro w d v h
    rw [psd_horvath_kawazoe_ry] at h
    simp only [except_bind_ok] at h
    obtain ⟨u, hu, h⟩ := h
    cases u
    obtain ⟨da, hda, dm, hdm, na, hna, nm, hnm, am, ham, pw, hpw, ldq, hld,
      mmq, hmm, hfinal⟩ := h
    injection hfinal with htrip
    exact ⟨pw, mmq, ldq, dictGet_ok hmm, dictGet_ok hld, htrip.symm⟩

/-- Witness for claim C2 at the concrete slit HK and RY runs. -/
theorem hk_band_filter_signed_witness :
    psd_horvath_kawazoe testEnv [1, 2, 3] [1, 2, 1] 300 "slit" propsA propsM
        false = Except.ok ([5 / 2], [1 / 3], [2]) ∧
    (∀ x ∈ ([(1 : ℚ) / 3] : List ℚ), (1e-3 : ℚ) < x ∧ x < (1e3 : ℚ)) ∧
    (∃ pw mmq ldq,
      List.lookup "adsorbate_molar_mass" propsA = some mmq ∧
      List.lookup "liquid_density" propsA = some ldq ∧
      (([5 / 2], [1 / 3], [2]) : List ℚ × List ℚ × List ℚ) =
        band_mask_filter (hk_assembly pw [1, 2, 1] mmq ldq) ∧
      ([(1 : ℚ) / 3] : List ℚ) = (hk_assembly pw [1, 2, 1] mmq ldq).2.1.filter
        (fun x => decide ((1e-3 : ℚ) < x) && decide (x < (1e3 : ℚ)))) ∧
    psd_horvath_kawazoe_ry testEnv [1, 2, 3] [1, 2, 1] 300 "slit" propsA
        propsM false = Except.ok ([5 / 2, 13 / 2], [1 / 3, -1 / 5], [2, 1]) ∧
    (∃ pw mmq ldq,
      List.lookup "adsorbate_molar_mass" propsA = some mmq ∧
      List.lookup "liquid_density" propsA = some ldq ∧
      (([5 / 2, 13 / 2], [1 / 3, -1 / 5], [2, 1]) :
          List ℚ × List ℚ × List ℚ) =
        hk_assembly pw [1, 2, 1] mmq ldq) := by
  have h := hk_band_filter_signed testEnv [1, 2, 3] [1, 2, 1] 300 "slit"
    propsA propsM false
  have h1 := h.1 [5 / 2] [1 / 3] [2] hk_slit_cex_eval
  have h2 := h.2 [5 / 2, 13 / 2] [1 / 3, -1 / 5] [2, 1] ry_slit_cex_eval
  exact ⟨hk_slit_cex_eval, h1.1, h1.2, ry_slit_cex_eval, h2⟩

end PyGAPS
